import Mathlib

/-
  Verification development for the hex_machina_v2 ingestion pipeline.

  Shallow embedding of the core ingestion components:
  - src/hex_machina/utils/date_parser.py        (DateParser)
  - src/hex_machina/ingestion/content_validator.py (ContentValidator)
  - src/hex_machina/ingestion/scrapers/rss_article_scraper.py (RSSArticleScraper.parse)
  - src/hex_machina/ingestion/scrapers/playwright_rss_article_scraper.py (parse)
  - src/hex_machina/ingestion/scrapers/stealth_playwright_rss_article_scraper.py (parse)
  - src/hex_machina/ingestion/scrapy_pipelines.py (ArticleStorePipeline)
  - src/hex_machina/storage/duckdb_adapter.py   (count/find queries, modelled on a list)
  - src/hex_machina/ingestion/ingestion_runner.py (IngestionRunner.run finalization)

  External collaborators (the Python regex engine, strptime, the DOM, the
  browser) are modelled as oracle parameters: the embedded control flow is
  translated faithfully from the source and quantified over every possible
  behaviour of those collaborators.
-/

namespace HexMachina

/-- Drop leading whitespace characters. -/
def dropLeadingWs : List Char → List Char
  | [] => []
  | c :: rest => if c.isWhitespace then dropLeadingWs rest else c :: rest

/-- Python `str.strip()`: whitespace removed from both ends (kept executable
by kernel reduction, unlike `String.trim`). -/
def pyStrip (s : String) : String :=
  String.mk ((dropLeadingWs (dropLeadingWs s.data.reverse).reverse))

/- ===================== DateParser (utils/date_parser.py) ===================== -/

/-- Model of a Python `datetime`: `wall` is the wall-clock reading collapsed to
a single integer timeline (seconds), `tz` is `tzinfo` as an offset east of UTC
in seconds (`none` = naive datetime). Calendar-field overflow is outside the
claims; only ordering, offsets and awareness matter here. -/
structure PyDateTime where
  wall : Int
  tz : Option Int
deriving Repr, DecidableEq

/-- Instant denoted by an aware datetime (UTC seconds); a naive datetime reads
as its wall clock, matching how the code only compares already-normalized
values. -/
def instant (dt : PyDateTime) : Int := dt.wall - dt.tz.getD 0

/-- DateParser._ensure_utc: naive datetimes get `tzinfo=timezone.utc` attached
(`replace`, wall clock unchanged); aware non-UTC datetimes are converted with
`astimezone(timezone.utc)` (instant preserved, offset becomes 0). A zero
offset already equals `timezone.utc` in Python, so it is left untouched. -/
def ensure_utc (dt : PyDateTime) : PyDateTime :=
  match dt.tz with
  | none => { dt with tz := some 0 }
  | some off => if off = 0 then dt else { wall := dt.wall - off, tz := some 0 }

/-- DateParser.DATE_FORMATS, in source order. -/
def DATE_FORMATS : List String :=
  [ "%Y-%m-%dT%H:%M:%S%z"
  , "%Y-%m-%dT%H:%M:%SZ"
  , "%Y-%m-%dT%H:%M:%S"
  , "%Y-%m-%d %H:%M:%S%z"
  , "%Y-%m-%d %H:%M:%S"
  , "%Y-%m-%d"
  , "%a, %d %b %Y %H:%M:%S %z"
  , "%a, %d %b %Y %H:%M:%S %Z"
  , "%a, %d %b %Y %H:%M:%S"
  , "%d %b %Y %H:%M:%S %z"
  , "%d %b %Y %H:%M:%S"
  , "%Y/%m/%d %H:%M:%S"
  , "%Y/%m/%d"
  , "%m/%d/%Y %H:%M:%S"
  , "%m/%d/%Y" ]

/-- DateParser._apply_timezone, after the source has stripped the colon from
the matched offset string: `sign` is true for a leading minus, `hours` and
`minutes` the two parsed integer fields; the computed offset replaces the
tzinfo of the (naive) datetime. The `"Z"` branch of the source never fires
from `_extract_date_patterns` because the regex leaves group 7 empty for `Z`. -/
def apply_timezone (dt : PyDateTime) (sign : Bool) (hours minutes : Nat) : PyDateTime :=
  let offset : Int := hours * 3600 + minutes * 60
  let offset : Int := if sign then -offset else offset
  { dt with tz := some offset }

/-- Fields produced by a successful match of the ISO regex in
DateParser._extract_date_patterns: `dt` is the result of the
`datetime(year, ..., second)` constructor call (`none` models the ValueError
the source catches), `tzGroup` is group 7 decomposed as (sign, hours,
minutes). -/
structure IsoFields where
  dt : Option PyDateTime
  tzGroup : Option (Bool × Nat × Nat)

/-- Oracle bundle for the external parsing collaborators of DateParser:
`strptime fmt s` models `datetime.strptime(s, fmt)` (`none` = ValueError),
`isoMatch` the ISO-8601 regex match of `_extract_date_patterns`, and
`dateOnlyMatch` its date-only regex plus constructor (`none` covers both a
non-match and a caught ValueError). Theorems below hold for every oracle. -/
structure DateOracle where
  strptime : String → String → Option PyDateTime
  isoMatch : String → Option IsoFields
  dateOnlyMatch : String → Option PyDateTime

/-- DateParser._parse_custom_formats: try each format in order, return
`_ensure_utc` of the first successful parse. -/
def parse_custom_formats (o : DateOracle) (s : String) : Option PyDateTime :=
  match DATE_FORMATS.findSome? (fun fmt => o.strptime fmt s) with
  | some dt => some (ensure_utc dt)
  | none => none

/-- Date-only fallback of DateParser._extract_date_patterns. -/
def date_only_pattern (o : DateOracle) (s : String) : Option PyDateTime :=
  match o.dateOnlyMatch s with
  | some dt => some (ensure_utc dt)
  | none => none

/-- DateParser._extract_date_patterns: ISO pattern first (optionally applying
the matched offset), falling back to the date-only pattern when the ISO regex
does not match or its datetime constructor raises. -/
def extract_date_patterns (o : DateOracle) (s : String) : Option PyDateTime :=
  match o.isoMatch s with
  | some fields =>
    match fields.dt with
    | some dt0 =>
      let dt1 := match fields.tzGroup with
        | some (sg, h, m) => apply_timezone dt0 sg h m
        | none => dt0
      some (ensure_utc dt1)
    | none => date_only_pattern o s
  | none => date_only_pattern o s

/-- Argument type of DateParser.parse_date: Python `None`, a `datetime`, a
string, or any other object (the `isinstance` fallthrough). -/
inductive DateInput where
  | none : DateInput
  | dt : PyDateTime → DateInput
  | str : String → DateInput
  | other : DateInput

/-- DateParser.parse_date: `None` and non-strings map to `None`; datetimes are
normalized with `_ensure_utc`; strings are stripped, rejected when empty, then
run through `_parse_custom_formats` and `_extract_date_patterns`. Every
fallible Python operation is modelled in `Option`, so the embedding is total
(the source lets no exception escape on these paths). -/
def parse_date (o : DateOracle) (input : DateInput) : Option PyDateTime :=
  match input with
  | .none => Option.none
  | .dt d => some (ensure_utc d)
  | .other => Option.none
  | .str s =>
    let date_str := pyStrip s
    if date_str = "" then Option.none
    else
      match parse_custom_formats o date_str with
      | some d => some d
      | none => extract_date_patterns o date_str

/-- DateParser.compare_dates: parse both sides; 0 when either parse fails,
otherwise the sign of the aware-datetime comparison (instant order). -/
def compare_dates (o : DateOracle) (d1 d2 : DateInput) : Int :=
  match parse_date o d1, parse_date o d2 with
  | some p1, some p2 =>
    if instant p1 < instant p2 then -1
    else if instant p2 < instant p1 then 1
    else 0
  | _, _ => 0

/-- DateParser.is_date_after_threshold: `True` when either side is `None`
(dates without a threshold comparison are allowed through), otherwise
`compare_dates >= 0`. -/
def is_date_after_threshold (o : DateOracle) (date threshold : DateInput) : Bool :=
  match date, threshold with
  | .none, _ => true
  | _, .none => true
  | d, t => compare_dates o d t ≥ 0

/- ================= ContentValidator (ingestion/content_validator.py) ================= -/

/-- Join a list of matched terms the way the source renders `set(matches)`
with `", ".join`: deduplicated; Python set order is unspecified, fixed here to
first occurrence. -/
def joinMatches (ms : List String) : String := String.intercalate ", " ms.eraseDups

/-- Result dictionary of ContentValidator.validate_content. -/
structure ValidationResult where
  is_valid : Bool
  issues : List String
  warnings : List String
  content_length : Nat
  status_code : Int
deriving Repr, DecidableEq

/-- Oracle bundle for the compiled regex batteries of ContentValidator:
`antiBotMatches` is `anti_bot_regex.findall`, `emptyContentSearch` the
`empty_content_regex.search` test, `errorPageMatches` and `redirectMatches`
the corresponding `findall`s, and `blockingIndicators` wraps
`_check_blocking_indicators` (Cloudflare pair, JavaScript pair, title and
meta-description vocabulary). Theorems hold for every oracle. -/
structure RegexOracle where
  antiBotMatches : String → List String
  emptyContentSearch : String → Bool
  errorPageMatches : String → List String
  redirectMatches : String → List String
  blockingIndicators : String → String → List String

/-- ContentValidator.validate_content: the empty/whitespace guard returns
immediately; afterwards each battery appends its issue or warning to the
accumulating result dictionary, invalidating on issues only. -/
def validate_content (o : RegexOracle) (html_content url : String)
    (status_code : Int) : Bool × ValidationResult :=
  let base : ValidationResult :=
    { is_valid := true, issues := [], warnings := []
    , content_length := html_content.length, status_code := status_code }
  if pyStrip html_content = "" then
    (false, { base with is_valid := false, issues := ["Empty content"] })
  else
    let r := base
    let anti := o.antiBotMatches html_content
    let r := if anti ≠ [] then
        { r with is_valid := false
               , issues := r.issues ++ ["Anti-bot detection: " ++ joinMatches anti] }
      else r
    let r := if o.emptyContentSearch html_content then
        { r with is_valid := false
               , issues := r.issues ++ ["Empty or minimal HTML content"] }
      else r
    let errs := o.errorPageMatches html_content
    let r := if errs ≠ [] then
        { r with is_valid := false
               , issues := r.issues ++ ["Error page detected: " ++ joinMatches errs] }
      else r
    let reds := o.redirectMatches html_content
    let r := if reds ≠ [] then
        { r with warnings := r.warnings ++ ["Suspicious redirect patterns: " ++ joinMatches reds] }
      else r
    let r := if html_content.length < 100 then
        { r with warnings := r.warnings ++ ["Very short content (potential blocking)"] }
      else r
    let inds := o.blockingIndicators html_content url
    let r := if inds ≠ [] then
        { r with issues := r.issues ++ inds, is_valid := false }
      else r
    (r.is_valid, r)

/- ============ Article items and RSS entry processing (scrapers/rss_article_scraper.py) ============ -/

/-- Mutable fields of the per-candidate item (models.ScrapedArticle /
article_models.ArticleModel) that the claims observe. `captcha_meta` is the
`captcha_found` key of `ingestion_metadata` (`none` when the key is absent);
the remaining metadata entries (scraper name, validation detail, suspicious
element count), author, summary and tags are not load-bearing for any claim
and are not tracked. -/
structure ArticleItem where
  title : String
  url : String
  source_url : String
  url_domain : String
  published_date : Option PyDateTime
  html_content : String
  text_content : String
  error_status : Option String
  error_message : Option String
  captcha_meta : Option Bool
deriving Repr, DecidableEq

/-- ArticleParser.parse_title whitespace collapsing: each maximal run of
whitespace becomes one space (the input is already stripped). -/
def collapseWsAux : List Char → Bool → List Char
  | [], _ => []
  | c :: rest, prevWs =>
    if c.isWhitespace then
      if prevWs then collapseWsAux rest true
      else ' ' :: collapseWsAux rest true
    else c :: collapseWsAux rest false

/-- ArticleParser.parse_title: empty-falsy guard, strip, collapse whitespace. -/
def parse_title (raw_title : String) : String :=
  if raw_title = "" then ""
  else String.mk (collapseWsAux (pyStrip raw_title).data false)

/-- ArticleParser.parse_url: empty-falsy guard, strip. -/
def parse_url (raw_url : String) : String :=
  if raw_url = "" then "" else pyStrip raw_url

/-- One feedparser entry as consumed by RSSArticleScraper.parse: the
`entry.get` lookups for title, link and published/updated are collapsed to
the strings they produce. -/
structure FeedEntry where
  title : String
  link : String
  published : String
deriving Repr, DecidableEq

/-- Terminal fate of a single feed entry inside RSSArticleScraper.parse:
dropped for a missing title or url, dropped by the published-date check
before any page request, or handed to `parse_article` (which issues the
Playwright page request for the candidate). -/
inductive EntryOutcome where
  | skippedMissing : EntryOutcome
  | dateRejected : EntryOutcome
  | fetched : ArticleItem → EntryOutcome
deriving Repr, DecidableEq

/-- True exactly when the entry outcome issued a page-fetch request. -/
def issuesFetch : EntryOutcome → Bool
  | .fetched _ => true
  | _ => false

/-- Items an entry contributes before its fetch response arrives: a skipped
or date-rejected entry yields nothing to the item pipeline. -/
def preFetchRecords : EntryOutcome → List ArticleItem
  | _ => []

/-- BaseArticleScraper.check_published_date: delegates to
DateParser.is_date_after_threshold on the already-parsed published date and
the configured limit date. -/
def check_published_date (o : DateOracle) (published_date : Option PyDateTime)
    (limit_date : DateInput) : Bool :=
  let dateArg : DateInput := match published_date with
    | some d => .dt d
    | none => .none
  is_date_after_threshold o dateArg limit_date

/-- Per-entry body of the loop in RSSArticleScraper.parse: parse and clean
title/url (entries missing either are skipped), parse the published date, drop
the entry when `check_published_date` fails, otherwise build the candidate
(with empty html/text content) and invoke `parse_article` on it. `netloc`
models `urlparse(url).netloc`; `feed_url` is the enclosing feed's url. The
surrounding article-limit break only stops the loop early and is not modelled
per entry. -/
def processEntry (o : DateOracle) (netloc : String → String) (limit_date : DateInput)
    (feed_url : String) (entry : FeedEntry) : EntryOutcome :=
  let title := parse_title entry.title
  let url := parse_url entry.link
  let url_domain := netloc url
  if title = "" ∨ url = "" then .skippedMissing
  else
    let published_date := parse_date o (.str entry.published)
    if ¬ check_published_date o published_date limit_date then .dateRejected
    else
      .fetched
        { title := title, url := url, source_url := feed_url
        , url_domain := url_domain, published_date := published_date
        , html_content := "", text_content := ""
        , error_status := none, error_message := none, captcha_meta := none }

/- ====== Playwright scrapers: parse callbacks ======
   (scrapers/playwright_rss_article_scraper.py, scrapers/stealth_playwright_rss_article_scraper.py) -/

/-- Behaviour of the Playwright page attached to one response: `content` is
`await page.content()` (exception message on the left), `captchaFound` the
outcome of the DOM CAPTCHA selector loop (its per-selector exceptions are
swallowed by the source, so a plain Bool), `innerText` is
`await page.evaluate(body.innerText)` together with the rest of the awaited
calls of the success branch (exception on the left). -/
structure PageSession where
  content : Except String String
  captchaFound : Bool
  innerText : Except String String

/-- A response as seen by the `parse` callbacks: either carrying a Playwright
page or falling back to the plain Scrapy response text. -/
inductive PWResponse where
  | withPage : PageSession → PWResponse
  | plainBody : String → PWResponse

/-- Join of a validation issue list as rendered into the error message
(`', '.join(validation_result['issues'])`, no deduplication). -/
def joinIssues (l : List String) : String := String.intercalate ", " l

/-- PlaywrightRSSArticleScraper.parse as a function from the fetched response
and the incoming item to the list of item snapshots yielded to the pipeline,
in emission order. Mirrors the source exactly: a validation failure yields the
item once and then FALLS THROUGH (no return), so the trailing `yield article`
emits it a second time; a CAPTCHA hit overwrites the error fields; the
`except` branch of the page block and the page-less fallback close with the
trailing yield as well. `soup` models the BeautifulSoup `get_text` call of the
fallback path. -/
def plainParse (ro : RegexOracle) (soup : String → String) (url : String)
    (status : Int) (resp : PWResponse) (a : ArticleItem) : List ArticleItem :=
  match resp with
  | .withPage s =>
    match s.content with
    | .error e =>
      [{ a with error_status := some "page_processing_error"
              , error_message := some e, captcha_meta := none }]
    | .ok html =>
      let v := validate_content ro html url status
      let a1 := if v.1 = false then
          { a with error_status := some "content_blocked"
                 , error_message := some ("Content validation failed: " ++ joinIssues v.2.issues)
                 , captcha_meta := none }
        else a
      let out := if v.1 = false then [a1] else []
      if s.captchaFound then
        out ++ [{ a1 with error_status := some "captcha_detected"
                        , error_message := some "CAPTCHA detected"
                        , captcha_meta := some true }]
      else
        match s.innerText with
        | .error e =>
          out ++ [{ a1 with error_status := some "page_processing_error"
                          , error_message := some e, captcha_meta := none }]
        | .ok txt =>
          out ++ [{ a1 with html_content := html, text_content := txt
                          , captcha_meta := some false }]
  | .plainBody html =>
    let v := validate_content ro html url status
    let a1 := if v.1 = false then
        { a with error_status := some "content_blocked"
               , error_message := some ("Content validation failed: " ++ joinIssues v.2.issues)
               , captcha_meta := none }
      else a
    let out := if v.1 = false then [a1] else []
    out ++ [{ a1 with html_content := html, text_content := soup html
                    , captcha_meta := none }]

/-- StealthPlaywrightRSSArticleScraper.parse, same conventions as
`plainParse`. Differences taken from the source: a validation failure sets the
error fields on the item and then RETURNS, yielding nothing; a CAPTCHA hit
only stores `captcha_found` metadata and leaves the error status untouched;
error statuses are prefixed with `stealth_`. -/
def stealthParse (ro : RegexOracle) (soup : String → String) (url : String)
    (status : Int) (resp : PWResponse) (a : ArticleItem) : List ArticleItem :=
  match resp with
  | .withPage s =>
    match s.content with
    | .error e =>
      [{ a with error_status := some "stealth_page_processing_error"
              , error_message := some e, captcha_meta := none }]
    | .ok html =>
      let v := validate_content ro html url status
      if v.1 = false then []
      else if s.captchaFound then [{ a with captcha_meta := some true }]
      else
        match s.innerText with
        | .error e =>
          [{ a with error_status := some "stealth_page_processing_error"
                  , error_message := some e, captcha_meta := none }]
        | .ok txt =>
          [{ a with html_content := html, text_content := txt
                  , captcha_meta := some false }]
  | .plainBody html =>
    let v := validate_content ro html url status
    if v.1 = false then []
    else [{ a with html_content := html, text_content := soup html
                 , captcha_meta := none }]

/-- True when the fetched content reached the validator and was classified
invalid (the branch on which the two scrapers' emission counts diverge). -/
def fetchedInvalid (ro : RegexOracle) (url : String) (status : Int)
    (resp : PWResponse) : Bool :=
  match resp with
  | .withPage s =>
    match s.content with
    | .ok html => !(validate_content ro html url status).1
    | .error _ => false
  | .plainBody html => !(validate_content ro html url status).1

/- ============ Storage (storage/duckdb_adapter.py) and pipeline (ingestion/scrapy_pipelines.py) ============ -/

/-- Columns of the ArticleDB row that the claims observe (json-encoded
metadata, author, dates and timestamps are not load-bearing). The database is
modelled as the list of rows in insertion order. -/
structure ArticleRow where
  title : String
  url : String
  source_url : String
  url_domain : String
  ingestion_run_id : Nat
  html_content : String
  text_content : String
  ingestion_error_status : Option String
  ingestion_error_message : String
deriving Repr, DecidableEq

/-- Predicate of the dedup query filter `filter_by(url_domain=..., title=...)`. -/
def rowKeyMatches (url_domain title : String) (r : ArticleRow) : Bool :=
  r.url_domain == url_domain && r.title == title

/-- DuckDBAdapter.get_article_by_domain_and_title: first row matching the
exact (url_domain, title) pair, if any. -/
def get_article_by_domain_and_title (db : List ArticleRow) (url_domain title : String) :
    Option ArticleRow :=
  db.find? (rowKeyMatches url_domain title)

/-- DuckDBAdapter.count_articles_for_operation: rows with the given run id. -/
def count_articles_for_operation (db : List ArticleRow) (ingestion_run_id : Nat) : Nat :=
  (db.filter (fun r => r.ingestion_run_id == ingestion_run_id)).length

/-- DuckDBAdapter.count_errors_for_operation: rows with the given run id whose
`ingestion_error_status` is not NULL. -/
def count_errors_for_operation (db : List ArticleRow) (ingestion_run_id : Nat) : Nat :=
  (db.filter (fun r =>
    r.ingestion_run_id == ingestion_run_id && r.ingestion_error_status.isSome)).length

/-- ArticleStorePipeline._validate_content_lengths: a pre-existing truthy
error status passes through with its message (`or ""` collapses a missing
message); otherwise content below the hard-coded minima is downgraded to
HTML_TOO_SHORT respectively TEXT_TOO_SHORT; otherwise no error. -/
def validate_content_lengths (item : ArticleItem) : Option String × String :=
  let html_length := item.html_content.length
  let text_length := item.text_content.length
  if item.error_status.getD "" ≠ "" then
    (item.error_status, item.error_message.getD "")
  else if html_length < 10000 then
    (some "HTML_TOO_SHORT",
     "HTML content too short: " ++ toString html_length ++ " characters (minimum: 10000)")
  else if text_length < 465 then
    (some "TEXT_TOO_SHORT",
     "Text content too short: " ++ toString text_length ++ " characters (minimum: 465)")
  else (none, "")

/-- ArticleStorePipeline.process_item: look the (url_domain, title) pair up in
storage; when found, return without touching the database (the Boolean
reports whether an insert happened); otherwise run the length policy and
append the converted row linked to the current run id. -/
def process_item (db : List ArticleRow) (ingestion_run_id : Nat) (item : ArticleItem) :
    List ArticleRow × Bool :=
  match get_article_by_domain_and_title db item.url_domain item.title with
  | some _ => (db, false)
  | none =>
    let es := validate_content_lengths item
    let row : ArticleRow :=
      { title := item.title, url := item.url, source_url := item.source_url
      , url_domain := item.url_domain, ingestion_run_id := ingestion_run_id
      , html_content := item.html_content, text_content := item.text_content
      , ingestion_error_status := es.1, ingestion_error_message := es.2 }
    (db ++ [row], true)

/- ============ Run lifecycle (ingestion/ingestion_runner.py, IngestionRunner.run) ============ -/

/-- Fields of the IngestionOperationDB record (storage/models.py) the claims
observe; times are abstract tick values. -/
structure IngestionOperationRec where
  id : Nat
  start_time : Nat
  end_time : Nat
  num_articles_processed : Nat
  num_errors : Nat
  status : String
deriving Repr, DecidableEq

/-- Operation record as IngestionRunner.run creates it before dispatch:
status `running`, end_time provisionally the start time, zero counts. -/
def initialOperation (id start_time : Nat) : IngestionOperationRec :=
  { id := id, start_time := start_time, end_time := start_time
  , num_articles_processed := 0, num_errors := 0, status := "running" }

/-- Tail of IngestionRunner.run around `crawler_process.start()`:
`dispatchError` is the exception message caught by the `except` block (`none`
when dispatch completed normally; the except block already stamps the record
failed at `t_exc`), and the `finally` block then unconditionally re-queries
storage for the counts by run id, stamps `end_time := t_fin`, and sets the
status from `summary["errors"]` alone: `completed` when no dispatch exception
was recorded, `failed` otherwise. `db` is the storage state at finalization. -/
def runnerFinalize (db : List ArticleRow) (op : IngestionOperationRec)
    (dispatchError : Option String) (t_exc t_fin : Nat) : IngestionOperationRec :=
  let op1 := match dispatchError with
    | some _ => { op with status := "failed", end_time := t_exc }
    | none => op
  { op1 with
      end_time := t_fin
    , status := if dispatchError.isNone then "completed" else "failed"
    , num_articles_processed := count_articles_for_operation db op.id
    , num_errors := count_errors_for_operation db op.id }

/- ===================== Shared concrete instances for witnesses ===================== -/

/-- Oracle on which every external parse and match fails. -/
def emptyDateOracle : DateOracle :=
  { strptime := fun _ _ => none, isoMatch := fun _ => none, dateOnlyMatch := fun _ => none }

/-- Oracle whose date-only regex always matches the naive epoch datetime. -/
def epochDateOracle : DateOracle :=
  { strptime := fun _ _ => none, isoMatch := fun _ => none
  , dateOnlyMatch := fun _ => some { wall := 0, tz := none } }

/-- Regex oracle with no matches anywhere: every non-empty content validates. -/
def emptyRegexOracle : RegexOracle :=
  { antiBotMatches := fun _ => [], emptyContentSearch := fun _ => false
  , errorPageMatches := fun _ => [], redirectMatches := fun _ => []
  , blockingIndicators := fun _ _ => [] }

/-- Regex oracle whose anti-bot battery always matches the term `captcha`:
every content is classified invalid. -/
def captchaRegexOracle : RegexOracle :=
  { emptyRegexOracle with antiBotMatches := fun _ => ["captcha"] }

/-- Identity stand-in for the BeautifulSoup text extraction. -/
def soupId : String → String := fun s => s

/-- A concrete candidate item as built by RSSArticleScraper.parse (empty
content, no error). -/
def sampleArticle : ArticleItem :=
  { title := "T", url := "http://e/a", source_url := "http://e/feed"
  , url_domain := "e", published_date := none
  , html_content := "", text_content := ""
  , error_status := none, error_message := none, captcha_meta := none }

/- ===================== Helper lemmas ===================== -/

theorem ensure_utc_tz (dt : PyDateTime) : (ensure_utc dt).tz = some 0 := by
  obtain ⟨wall, tz⟩ := dt
  cases tz with
  | none => rfl
  | some off =>
    by_cases h0 : off = 0
    · simp [ensure_utc, h0]
    · simp [ensure_utc, h0]

theorem ensure_utc_id (dt : PyDateTime) (h : dt.tz = some 0) : ensure_utc dt = dt := by
  unfold ensure_utc
  rw [h]
  simp

theorem ensure_utc_instant (dt : PyDateTime) : instant (ensure_utc dt) = instant dt := by
  obtain ⟨wall, tz⟩ := dt
  cases tz with
  | none => rfl
  | some off =>
    by_cases h0 : off = 0
    · simp [ensure_utc, instant, h0]
    · simp [ensure_utc, instant, h0]

theorem parse_custom_formats_tz (o : DateOracle) (s : String) (d : PyDateTime)
    (h : parse_custom_formats o s = some d) : d.tz = some 0 := by
  unfold parse_custom_formats at h
  split at h
  · cases h; exact ensure_utc_tz _
  · exact absurd h (by simp)

theorem date_only_pattern_tz (o : DateOracle) (s : String) (d : PyDateTime)
    (h : date_only_pattern o s = some d) : d.tz = some 0 := by
  unfold date_only_pattern at h
  split at h
  · cases h; exact ensure_utc_tz _
  · exact absurd h (by simp)

theorem extract_date_patterns_tz (o : DateOracle) (s : String) (d : PyDateTime)
    (h : extract_date_patterns o s = some d) : d.tz = some 0 := by
  unfold extract_date_patterns at h
  split at h
  · split at h
    · cases h; exact ensure_utc_tz _
    · exact date_only_pattern_tz o s d h
  · exact date_only_pattern_tz o s d h

theorem parse_date_tz (o : DateOracle) (input : DateInput) (d : PyDateTime)
    (h : parse_date o input = some d) : d.tz = some 0 := by
  cases input with
  | none => exact absurd h (by simp [parse_date])
  | other => exact absurd h (by simp [parse_date])
  | dt d0 =>
    have h2 : some (ensure_utc d0) = some d := h
    cases h2; exact ensure_utc_tz d0
  | str s =>
    simp only [parse_date] at h
    split at h
    · exact absurd h (by simp)
    · split at h
      · cases h
        exact parse_custom_formats_tz o _ _ (by assumption)
      · exact extract_date_patterns_tz o _ d h

/- ===================== Claim theorems ===================== -/

/-- C9: for every url and status code, validating empty or whitespace-only
content returns invalid with the single issue "Empty content" immediately,
untouched by any of the later heuristic batteries (the result is the same for
every regex oracle, so no later check can contribute). -/
theorem validate_content_empty_short_circuits (o : RegexOracle) (html url : String)
    (status : Int) (h : pyStrip html = "") :
    validate_content o html url status =
      (false, { is_valid := false, issues := ["Empty content"], warnings := []
              , content_length := html.length, status_code := status }) := by
  unfold validate_content
  rw [if_pos h]

/-- Witness for C9 at the concrete call validate("", url, 200). -/
theorem validate_content_empty_short_circuits_witness :
    validate_content emptyRegexOracle "" "http://example.com" 200 =
      (false, { is_valid := false, issues := ["Empty content"], warnings := []
              , content_length := 0, status_code := 200 }) :=
  validate_content_empty_short_circuits emptyRegexOracle "" "http://example.com" 200 (by decide)

/-- C10: DateParser.parse_date never returns anything but None or a UTC-aware
datetime, for every behaviour of strptime and the regex batteries; moreover
_ensure_utc stamps every result UTC, attaches UTC to naive datetimes without
moving the wall clock, and converts aware datetimes preserving the instant.
Each fallible Python operation is embedded in Option, so the embedding is
total: no exception escapes parse_date. -/
theorem parse_date_utc_invariant (o : DateOracle) (input : DateInput) :
    (∀ d, parse_date o input = some d → d.tz = some 0) ∧
    (∀ dt : PyDateTime,
      (ensure_utc dt).tz = some 0 ∧
      (dt.tz = none → ensure_utc dt = { dt with tz := some 0 }) ∧
      instant (ensure_utc dt) = instant dt) := by
  refine ⟨fun d h => parse_date_tz o input d h, fun dt => ⟨ensure_utc_tz dt, ?_, ensure_utc_instant dt⟩⟩
  intro hnaive
  unfold ensure_utc
  rw [hnaive]

/-- Witness for C10 on a concrete oracle, string input, naive datetime and
aware non-UTC datetime. -/
theorem parse_date_utc_invariant_witness :
    PyDateTime.tz { wall := 0, tz := some 0 } = some 0 ∧
    ensure_utc { wall := 5, tz := none } = { wall := 5, tz := some 0 } ∧
    instant (ensure_utc { wall := 7, tz := some 3600 }) = instant { wall := 7, tz := some 3600 } := by
  refine ⟨?_, ?_, ?_⟩
  · exact (parse_date_utc_invariant epochDateOracle (.str "2024-01-15")).1 _ (by decide)
  · exact ((parse_date_utc_invariant epochDateOracle .none).2 { wall := 5, tz := none }).2.1 rfl
  · exact ((parse_date_utc_invariant epochDateOracle .none).2 { wall := 7, tz := some 3600 }).2.2

/-- C7: an entry whose parsed published_date lands strictly before the
configured threshold (both UTC-normalized, as parse_date emits them) is
dropped by RSSArticleScraper.parse before parse_article runs: no page fetch
request is ever issued for it, and it contributes no item. -/
theorem date_rejected_never_fetched (o : DateOracle) (netloc : String → String)
    (feed_url : String) (entry : FeedEntry) (d t : PyDateTime)
    (hd : parse_date o (.str entry.published) = some d)
    (ht : t.tz = some 0)
    (hlt : instant d < instant t) :
    issuesFetch (processEntry o netloc (.dt t) feed_url entry) = false := by
  unfold processEntry
  by_cases hmiss : parse_title entry.title = "" ∨ parse_url entry.link = ""
  · rw [if_pos hmiss]; rfl
  · rw [if_neg hmiss]
    have hd0 : d.tz = some 0 := parse_date_tz o _ d hd
    have hcheck : check_published_date o (parse_date o (.str entry.published)) (.dt t) = false := by
      rw [hd]
      unfold check_published_date is_date_after_threshold compare_dates
      simp only [parse_date, ensure_utc_id d hd0, ensure_utc_id t ht]
      rw [if_pos hlt]
      decide
    simp [hcheck, issuesFetch]

/-- Witness for C7: a candidate parsed to epoch against a later threshold is
date-rejected without a fetch. -/
theorem date_rejected_never_fetched_witness :
    issuesFetch (processEntry epochDateOracle (fun _ => "e") (.dt { wall := 100, tz := some 0 })
      "http://e/feed" { title := "T", link := "http://e/a", published := "2020-01-01" }) = false :=
  date_rejected_never_fetched epochDateOracle (fun _ => "e") "http://e/feed"
    { title := "T", link := "http://e/a", published := "2020-01-01" }
    { wall := 0, tz := some 0 } { wall := 100, tz := some 0 }
    (by decide) (by decide) (by decide)

/-- C8 counterexample: with a date threshold configured and a published string
the date parser cannot parse (parse_date returns None), the candidate is NOT
treated as date-rejected: processEntry still issues the page fetch. -/
theorem unparsable_date_fetched_cex :
    parse_date emptyDateOracle (.str "not a date") = none ∧
    issuesFetch (processEntry emptyDateOracle (fun _ => "e") (.dt { wall := 0, tz := some 0 })
      "http://e/feed" { title := "T", link := "http://e/a", published := "not a date" }) = true := by
  constructor
  · decide
  · decide

/-- C8 amended: when a date threshold is configured and the candidate's
published_date cannot be parsed, is_date_after_threshold receives None, which
it lets through (fail OPEN): the candidate passes the check and is fetched. -/
theorem unparsable_date_fail_open (o : DateOracle) (netloc : String → String)
    (feed_url : String) (entry : FeedEntry) (t : PyDateTime)
    (hp : parse_date o (.str entry.published) = none)
    (hT : ¬ parse_title entry.title = "")
    (hU : ¬ parse_url entry.link = "") :
    issuesFetch (processEntry o netloc (.dt t) feed_url entry) = true := by
  unfold processEntry
  rw [if_neg (by tauto)]
  rw [hp]
  rfl

/-- Witness for C8's amended statement on a concrete unparsable input. -/
theorem unparsable_date_fail_open_witness :
    issuesFetch (processEntry emptyDateOracle (fun _ => "x.org") (.dt { wall := 50, tz := some 0 })
      "http://x.org/feed" { title := "A Title", link := "http://x.org/a", published := "???" }) = true :=
  unparsable_date_fail_open emptyDateOracle (fun _ => "x.org") "http://x.org/feed"
    { title := "A Title", link := "http://x.org/a", published := "???" }
    { wall := 50, tz := some 0 } (by decide) (by decide) (by decide)

/-- C2 counterexample: a candidate whose page request succeeded but whose
content the validator rejects is silently dropped by the stealth scraper —
zero items are emitted, contradicting "never zero items ... including the
case where content validation fails". -/
theorem stealth_drops_invalid_cex :
    stealthParse captchaRegexOracle soupId "http://u" 200
      (.withPage { content := .ok "<html>x</html>", captchaFound := false, innerText := .ok "t" })
      sampleArticle = [] := by
  decide

/-- C2 amended: a candidate whose fetch reached the parse callback emits
exactly one terminal item unless content validation fails on the fetched
content; on a validation failure the plain Playwright scraper emits the item
twice (the content_blocked snapshot and the trailing yield) and the stealth
variant emits nothing. -/
theorem scraper_emission_counts (ro : RegexOracle) (soup : String → String)
    (url : String) (status : Int) (resp : PWResponse) (a : ArticleItem) :
    (plainParse ro soup url status resp a).length =
      (if fetchedInvalid ro url status resp then 2 else 1) ∧
    (stealthParse ro soup url status resp a).length =
      (if fetchedInvalid ro url status resp then 0 else 1) := by
  cases resp with
  | plainBody html =>
    cases hv : (validate_content ro html url status).1 with
    | false => constructor <;> simp [plainParse, stealthParse, fetchedInvalid, hv]
    | true => constructor <;> simp [plainParse, stealthParse, fetchedInvalid, hv]
  | withPage s =>
    obtain ⟨c, cf, it⟩ := s
    cases c with
    | error e => constructor <;> simp [plainParse, stealthParse, fetchedInvalid]
    | ok html =>
      cases hv : (validate_content ro html url status).1 with
      | false =>
        cases cf <;> cases it <;>
          constructor <;> simp [plainParse, stealthParse, fetchedInvalid, hv]
      | true =>
        cases cf <;> cases it <;>
          constructor <;> simp [plainParse, stealthParse, fetchedInvalid, hv]

/-- C3 counterexample: the stealth scraper, on a fetched page that passes
validation but whose DOM CAPTCHA probe is positive, emits the record with
only captcha metadata — its error status is None, not "captcha_detected". -/
theorem stealth_captcha_no_error_status_cex :
    stealthParse emptyRegexOracle soupId "http://u" 200
      (.withPage { content := .ok "<html>ok</html>", captchaFound := true, innerText := .ok "t" })
      sampleArticle = [{ sampleArticle with captcha_meta := some true }] ∧
    ({ sampleArticle with captcha_meta := some true } : ArticleItem).error_status ≠
      some "captcha_detected" := by
  constructor
  · decide
  · decide

/-- C3 amended: in the plain Playwright scraper a positive CAPTCHA probe
makes the finally-yielded record carry error kind captcha_detected with
html/text left empty, and a validation failure makes the first emitted record
carry content_blocked whose message is "Content validation failed: " followed
by the joined issue list; in the stealth variant a validation failure emits
no record at all and a positive CAPTCHA probe on validated content emits one
record with captcha metadata but no error status and empty content. -/
theorem captcha_and_blocked_classification (ro : RegexOracle) (soup : String → String)
    (url : String) (status : Int) (s : PageSession) (a : ArticleItem) (html : String)
    (hc : s.content = .ok html)
    (hh : a.html_content = "") (htx : a.text_content = "") :
    (s.captchaFound = true →
      (plainParse ro soup url status (.withPage s) a).getLast? =
        some { a with error_status := some "captcha_detected"
                    , error_message := some "CAPTCHA detected"
                    , captcha_meta := some true
                    , html_content := "", text_content := "" }) ∧
    ((validate_content ro html url status).1 = false →
      (plainParse ro soup url status (.withPage s) a).head? =
        some { a with error_status := some "content_blocked"
                    , error_message := some ("Content validation failed: " ++
                        joinIssues (validate_content ro html url status).2.issues)
                    , captcha_meta := none
                    , html_content := "", text_content := "" }) ∧
    ((validate_content ro html url status).1 = true → s.captchaFound = true →
      stealthParse ro soup url status (.withPage s) a =
        [{ a with captcha_meta := some true, html_content := "", text_content := "" }]) := by
  obtain ⟨c, cf, it⟩ := s
  simp only at hc
  subst hc
  obtain ⟨ti, u, su, ud, pd, hc0, tc0, es0, em0, cm0⟩ := a
  simp only at hh htx
  subst hh
  subst htx
  refine ⟨?_, ?_, ?_⟩
  · intro hcf
    simp only at hcf
    subst hcf
    cases hv : (validate_content ro html url status).1 with
    | false => simp [plainParse, hv, List.getLast?_append]
    | true => simp [plainParse, hv, List.getLast?_append]
  · intro hv
    cases cf <;> cases it <;> simp [plainParse, hv]
  · intro hv hcf
    simp only at hcf
    subst hcf
    cases it <;> simp [stealthParse, hv]

/-- Witness for the C3 amended theorem at concrete oracles: the plain scraper
classifies a CAPTCHA page as captcha_detected, classifies blocked content as
content_blocked, and the stealth variant yields the captcha record without an
error status. -/
theorem captcha_and_blocked_classification_witness :
    ((plainParse emptyRegexOracle soupId "http://u" 200
      (.withPage { content := .ok "<html>ok</html>", captchaFound := true, innerText := .ok "t" })
      sampleArticle).getLast? =
        some { sampleArticle with
                 error_status := some "captcha_detected",
                 error_message := some "CAPTCHA detected",
                 captcha_meta := some true,
                 html_content := "", text_content := "" }) ∧
    ((plainParse captchaRegexOracle soupId "http://u" 200
      (.withPage { content := .ok "<html>x</html>", captchaFound := false, innerText := .ok "t" })
      sampleArticle).head? =
        some { sampleArticle with
                 error_status := some "content_blocked",
                 error_message := some ("Content validation failed: " ++
                   joinIssues (validate_content captchaRegexOracle "<html>x</html>" "http://u" 200).2.issues),
                 captcha_meta := none,
                 html_content := "", text_content := "" }) := by
  constructor
  · exact (captcha_and_blocked_classification emptyRegexOracle soupId "http://u" 200
      { content := .ok "<html>ok</html>", captchaFound := true, innerText := .ok "t" }
      sampleArticle "<html>ok</html>" rfl rfl rfl).1 rfl
  · exact (captcha_and_blocked_classification captchaRegexOracle soupId "http://u" 200
      { content := .ok "<html>x</html>", captchaFound := false, innerText := .ok "t" }
      sampleArticle "<html>x</html>" rfl rfl rfl).2.1 (by decide)

/-- Storage state with three rows for run 1, one of them an error row (the
spec scenario: 2 successes, 1 error). -/
def db3 : List ArticleRow :=
  [ { title := "A1", url := "http://e/1", source_url := "http://e/feed", url_domain := "e"
    , ingestion_run_id := 1, html_content := "h", text_content := "t"
    , ingestion_error_status := none, ingestion_error_message := "" }
  , { title := "A2", url := "http://e/2", source_url := "http://e/feed", url_domain := "e"
    , ingestion_run_id := 1, html_content := "", text_content := ""
    , ingestion_error_status := some "http_status_404", ingestion_error_message := "404" }
  , { title := "A3", url := "http://e/3", source_url := "http://e/feed", url_domain := "e"
    , ingestion_run_id := 1, html_content := "h", text_content := "t"
    , ingestion_error_status := none, ingestion_error_message := "" } ]

/-- C1 counterexample: a run that finalizes with num_processed = 3 and
num_errors = 1 and no dispatch exception gets status "completed", not the
"partial" the claim requires for 0 < num_errors < num_processed. -/
theorem runner_status_not_partial_cex :
    (runnerFinalize db3 (initialOperation 1 0) none 0 7).num_articles_processed = 3 ∧
    (runnerFinalize db3 (initialOperation 1 0) none 0 7).num_errors = 1 ∧
    (runnerFinalize db3 (initialOperation 1 0) none 0 7).status = "completed" := by
  refine ⟨by decide, by decide, by decide⟩

/-- C1 amended: IngestionRunner.run computes the final status solely from
whether the crawl dispatch raised — "completed" when no exception was
recorded, "failed" otherwise — independent of the persisted counts, and it
never produces "partial". -/
theorem runner_status_from_dispatch_only (db : List ArticleRow)
    (op : IngestionOperationRec) (e : Option String) (t1 t2 : Nat) :
    (runnerFinalize db op e t1 t2).status = (if e.isNone then "completed" else "failed") ∧
    (runnerFinalize db op e t1 t2).status ≠ "partial" := by
  cases e with
  | none =>
    refine ⟨rfl, fun h => ?_⟩
    have h2 : "completed" = "partial" := h
    exact absurd h2 (by decide)
  | some msg =>
    refine ⟨rfl, fun h => ?_⟩
    have h2 : "failed" = "partial" := h
    exact absurd h2 (by decide)

/-- C4: however dispatch ended (normally or with a caught exception), the
finalization step stamps end_time with the finalization time and takes
num_processed and num_errors from the storage queries keyed by the run id —
the embedded finalizer has no in-memory counters at all. -/
theorem runner_finalize_counts_from_storage (db : List ArticleRow)
    (op : IngestionOperationRec) (e : Option String) (t1 t2 : Nat) :
    (runnerFinalize db op e t1 t2).num_articles_processed = count_articles_for_operation db op.id ∧
    (runnerFinalize db op e t1 t2).num_errors = count_errors_for_operation db op.id ∧
    (runnerFinalize db op e t1 t2).end_time = t2 := by
  cases e with
  | none => exact ⟨rfl, rfl, rfl⟩
  | some msg => exact ⟨rfl, rfl, rfl⟩

/-- C5: the dedup guard makes persistence idempotent on (url_domain, title):
with a matching record already stored, process_item leaves the database
untouched and inserts nothing; and from a state without the key, processing
the same item twice stores exactly one row with that key, the second call
changing nothing and reporting no insert. -/
theorem process_item_idempotent (db : List ArticleRow) (rid : Nat) (item : ArticleItem) :
    (∀ r, get_article_by_domain_and_title db item.url_domain item.title = some r →
        process_item db rid item = (db, false)) ∧
    (get_article_by_domain_and_title db item.url_domain item.title = none →
        (((process_item db rid item).1.filter
            (rowKeyMatches item.url_domain item.title)).length = 1 ∧
         process_item (process_item db rid item).1 rid item =
            ((process_item db rid item).1, false))) := by
  constructor
  · intro r hr
    unfold process_item
    rw [hr]
  · intro hn
    have hfilter : db.filter (rowKeyMatches item.url_domain item.title) = [] := by
      rw [List.filter_eq_nil_iff]
      intro a ha
      exact List.find?_eq_none.mp hn a ha
    have hrow : ∀ rrow : ArticleRow, rrow.url_domain = item.url_domain →
        rrow.title = item.title → rowKeyMatches item.url_domain item.title rrow = true := by
      intro rrow h1 h2
      simp [rowKeyMatches, h1, h2]
    unfold process_item
    rw [hn]
    constructor
    · simp only [List.filter_append, hfilter, List.nil_append]
      rw [List.filter_cons_of_pos (by exact hrow _ rfl rfl)]
      rfl
    · unfold get_article_by_domain_and_title
      rw [List.find?_append]
      rw [List.find?_eq_none.mpr (fun a ha => List.find?_eq_none.mp hn a ha)]
      simp only [Option.none_or]
      rw [List.find?_cons_of_pos _ (by exact hrow _ rfl rfl)]

/-- Row sharing the (url_domain, title) dedup key of `sampleArticle`. -/
def dupRow : ArticleRow :=
  { title := "T", url := "http://e/a", source_url := "http://e/feed", url_domain := "e"
  , ingestion_run_id := 1, html_content := "", text_content := ""
  , ingestion_error_status := none, ingestion_error_message := "" }

/-- Witness for C5: a stored duplicate key blocks the insert, and inserting
into an empty store twice leaves exactly one row. -/
theorem process_item_idempotent_witness :
    process_item [dupRow] 1 sampleArticle = ([dupRow], false) ∧
    ((((process_item [] 1 sampleArticle).1.filter
        (rowKeyMatches sampleArticle.url_domain sampleArticle.title)).length = 1) ∧
      process_item (process_item [] 1 sampleArticle).1 1 sampleArticle =
        ((process_item [] 1 sampleArticle).1, false)) := by
  constructor
  · exact (process_item_idempotent [dupRow] 1 sampleArticle).1 dupRow (by decide)
  · exact (process_item_idempotent [] 1 sampleArticle).2 (by decide)

/-- C6: for a non-duplicate item, a pre-existing (truthy) error status is
persisted unchanged; without one, html content below the minimum is persisted
(not discarded) downgraded to HTML_TOO_SHORT, and passing html with text
below the text minimum is persisted downgraded to TEXT_TOO_SHORT. -/
theorem length_policy_downgrades_but_persists (db : List ArticleRow) (rid : Nat)
    (item : ArticleItem)
    (hnew : get_article_by_domain_and_title db item.url_domain item.title = none) :
    (item.error_status.getD "" = "" → item.html_content.length < 10000 →
      process_item db rid item =
        (db ++ [{ title := item.title, url := item.url, source_url := item.source_url
                , url_domain := item.url_domain, ingestion_run_id := rid
                , html_content := item.html_content, text_content := item.text_content
                , ingestion_error_status := some "HTML_TOO_SHORT"
                , ingestion_error_message := "HTML content too short: " ++
                    toString item.html_content.length ++ " characters (minimum: 10000)" }], true)) ∧
    (item.error_status.getD "" = "" → ¬ item.html_content.length < 10000 →
      item.text_content.length < 465 →
      process_item db rid item =
        (db ++ [{ title := item.title, url := item.url, source_url := item.source_url
                , url_domain := item.url_domain, ingestion_run_id := rid
                , html_content := item.html_content, text_content := item.text_content
                , ingestion_error_status := some "TEXT_TOO_SHORT"
                , ingestion_error_message := "Text content too short: " ++
                    toString item.text_content.length ++ " characters (minimum: 465)" }], true)) ∧
    (item.error_status.getD "" ≠ "" →
      process_item db rid item =
        (db ++ [{ title := item.title, url := item.url, source_url := item.source_url
                , url_domain := item.url_domain, ingestion_run_id := rid
                , html_content := item.html_content, text_content := item.text_content
                , ingestion_error_status := item.error_status
                , ingestion_error_message := item.error_message.getD "" }], true)) := by
  refine ⟨?_, ?_, ?_⟩
  · intro h0 h1
    unfold process_item
    rw [hnew]
    unfold validate_content_lengths
    rw [if_neg (fun hcon => hcon h0), if_pos h1]
  · intro h0 h1 h2
    unfold process_item
    rw [hnew]
    unfold validate_content_lengths
    rw [if_neg (fun hcon => hcon h0), if_neg h1, if_pos h2]
  · intro h0
    unfold process_item
    rw [hnew]
    unfold validate_content_lengths
    rw [if_pos h0]

/-- Item with content too short on both counts and no pre-existing error. -/
def shortHtmlItem : ArticleItem :=
  { sampleArticle with html_content := "tiny", text_content := "tiny" }

/-- Item whose html passes the minimum but whose text is too short. -/
def shortTextItem : ArticleItem :=
  { sampleArticle with
      html_content := String.mk (List.replicate 10000 'a'),
      text_content := "tiny" }

/-- Item arriving at the pipeline already carrying an error status. -/
def preErrorItem : ArticleItem :=
  { sampleArticle with
      error_status := some "captcha_detected",
      error_message := some "CAPTCHA detected" }

/-- Witness for C6 at three concrete items: short html, short text with
passing html, and a pre-existing error status. -/
theorem length_policy_downgrades_but_persists_witness :
    (process_item [] 1 shortHtmlItem =
      ([{ title := shortHtmlItem.title, url := shortHtmlItem.url
        , source_url := shortHtmlItem.source_url, url_domain := shortHtmlItem.url_domain
        , ingestion_run_id := 1
        , html_content := shortHtmlItem.html_content, text_content := shortHtmlItem.text_content
        , ingestion_error_status := some "HTML_TOO_SHORT"
        , ingestion_error_message := "HTML content too short: " ++
            toString shortHtmlItem.html_content.length ++ " characters (minimum: 10000)" }], true)) ∧
    (process_item [] 1 shortTextItem =
      ([{ title := shortTextItem.title, url := shortTextItem.url
        , source_url := shortTextItem.source_url, url_domain := shortTextItem.url_domain
        , ingestion_run_id := 1
        , html_content := shortTextItem.html_content, text_content := shortTextItem.text_content
        , ingestion_error_status := some "TEXT_TOO_SHORT"
        , ingestion_error_message := "Text content too short: " ++
            toString shortTextItem.text_content.length ++ " characters (minimum: 465)" }], true)) ∧
    (process_item [] 1 preErrorItem =
      ([{ title := preErrorItem.title, url := preErrorItem.url
        , source_url := preErrorItem.source_url, url_domain := preErrorItem.url_domain
        , ingestion_run_id := 1
        , html_content := preErrorItem.html_content, text_content := preErrorItem.text_content
        , ingestion_error_status := preErrorItem.error_status
        , ingestion_error_message := preErrorItem.error_message.getD "" }], true)) := by
  have hlen : shortTextItem.html_content.length = 10000 := by
    show (List.replicate 10000 'a').length = 10000
    rw [List.length_replicate]
  refine ⟨?_, ?_, ?_⟩
  · exact (length_policy_downgrades_but_persists [] 1 shortHtmlItem rfl).1 rfl (by decide)
  · exact (length_policy_downgrades_but_persists [] 1 shortTextItem rfl).2.1 rfl
      (by rw [hlen]; omega) (by decide)
  · exact (length_policy_downgrades_but_persists [] 1 preErrorItem rfl).2.2 (by decide)

end HexMachina
